import Mathlib

/-
Formal model of the `rehab_houses` frontend, a Next.js client for a
property-investment-analysis service.  The definitions below are shallow
embeddings of the TypeScript sources:

  * `src/frontend/src/utils/formatters.ts` — the formatting helpers
    (`formatCurrency`, `formatRoomType`, `formatCategoryName`,
    `getConditionColor`, `getConditionLabel`, `formatPercentage`);
  * `src/frontend/src/services/api.ts` — `analyzeProperty`;
  * `src/frontend/src/app/page.tsx` — `Home.handleSubmit` and the `Report`
    component (its session-storage read and its guarded section rendering;
    the two full `Report` variants in the source share the `!data.success`
    guard, the `monthly_rent || total_monthly_rent || 0` fallback and the
    `cost > 0` summary filter modelled here).

JavaScript numbers are modelled as `ℚ`, absent (`undefined`) values as
`Option`, JSON payloads by the inductive `Json`, and `sessionStorage` by an
association list.  Host built-ins the code calls are modelled explicitly,
restricted to what the application exercises:

  * `String.prototype.split("_") / trim / charAt(0).toUpperCase() + slice(1)`
    with ASCII case conversion;
  * `JSON.parse` / `JSON.stringify` with decimal numbers of an explicit
    scale instead of IEEE doubles, without `\uXXXX` string escapes and
    without exponent forms of numbers;
  * `Intl.NumberFormat("pt-PT", currency EUR, 0 fraction digits)`: rounding
    half away from zero (ICU roundingMode "halfExpand"), digit groups of
    three separated by no-break spaces only when the integer part has five
    or more digits (CLDR pt minimumGroupingDigits = 2), and the symbol
    rendered after the amount as in "1235 €".
-/

/-- Whitespace recognised by JavaScript's `String.prototype.trim` (the ASCII
whitespace characters plus the no-break space; the rarer Unicode space
characters are omitted from the model). -/
def jsWhitespace (c : Char) : Bool :=
  c = ' ' || c = '\t' || c = '\n' || c = '\r' || c = '\x0b' || c = '\x0c' || c = '\xa0'

/-- Model of `link.trim()` on the character list of the string: drop leading
and trailing whitespace. -/
def jsTrimList (l : List Char) : List Char :=
  ((l.dropWhile jsWhitespace).reverse.dropWhile jsWhitespace).reverse

/-- Model of `word.charAt(0).toUpperCase() + word.slice(1)` from
`formatRoomType` / `formatCategoryName`: only the first character is
upper-cased, the remaining characters are passed through unchanged. -/
def capFirst : List Char → List Char
  | [] => []
  | c :: rest => c.toUpper :: rest

/-- Model of `String.prototype.split("_")`: split at every underscore,
keeping empty segments, as the JavaScript built-in does. -/
def splitUnderscore : List Char → List (List Char)
  | [] => [[]]
  | c :: rest =>
    if c = '_' then [] :: splitUnderscore rest
    else
      match splitUnderscore rest with
      | [] => [[c]]
      | seg :: segs => (c :: seg) :: segs

/-- Model of `Array.prototype.join(" ")`. -/
def joinSpace : List (List Char) → List Char
  | [] => []
  | [s] => s
  | s :: t :: rest => s ++ ' ' :: joinSpace (t :: rest)

/-- `formatRoomType` from `formatters.ts`:
`roomType.split("_").map(w => w.charAt(0).toUpperCase() + w.slice(1)).join(" ")`. -/
def formatRoomType (s : String) : String :=
  String.mk (joinSpace ((splitUnderscore s.data).map capFirst))

/-- `formatCategoryName` from `formatters.ts`: the source body is identical
to `formatRoomType`'s. -/
def formatCategoryName (s : String) : String :=
  String.mk (joinSpace ((splitUnderscore s.data).map capFirst))

/-- Single-pass description of the label formatting: an underscore becomes a
space and starts a new word, the first character of each word is upper-cased
and all other characters are unchanged.  Used to state what the split / map /
join pipeline computes. -/
def titleWords : Bool → List Char → List Char
  | _, [] => []
  | atStart, c :: rest =>
    if c = '_' then ' ' :: titleWords true rest
    else (if atStart then c.toUpper else c) :: titleWords false rest

/-- Helper for relating the pipeline to `titleWords` mid-word: capitalize
every segment except the first (already started) one. -/
def capFirstTail : List (List Char) → List (List Char)
  | [] => []
  | s :: rest => s :: rest.map capFirst

/-- `getConditionColor` from `formatters.ts`.  The argument is
`condition?: number`; `undefined` and `0` are falsy, so the first guard
`if (!condition)` maps both to the gray class. -/
def getConditionColor : Option ℚ → String
  | none => "text-gray-500"
  | some v =>
    if v = 0 then "text-gray-500"
    else if 7/2 ≤ v then "text-green-600"
    else if 5/2 ≤ v then "text-yellow-600"
    else "text-red-600"

/-- `getConditionLabel` from `formatters.ts`: `undefined` and `0` hit the
falsiness guard and give "N/A"; then 3.5/2.5/1.5 thresholds give
"Excellent" / "Good" / "Fair", anything below is "Poor". -/
def getConditionLabel : Option ℚ → String
  | none => "N/A"
  | some v =>
    if v = 0 then "N/A"
    else if 7/2 ≤ v then "Excellent"
    else if 5/2 ≤ v then "Good"
    else if 3/2 ≤ v then "Fair"
    else "Poor"

/-- Rounding half away from zero: the rounding mode used by
`Intl.NumberFormat` (ICU "halfExpand") and by `Number.prototype.toFixed`. -/
def halfExpand (q : ℚ) : ℤ :=
  if 0 ≤ q then Rat.floor (q + 1/2) else -(Rat.floor (-q + 1/2))

/-- Little-endian decimal digits of a natural number; the fuel argument makes
the recursion structural so terms reduce in the kernel. -/
def digitsLE : ℕ → ℕ → List ℕ
  | 0, _ => []
  | f + 1, n => if n = 0 then [] else n % 10 :: digitsLE f (n / 10)

/-- Big-endian decimal digit characters of a natural number. -/
def natDigits (n : ℕ) : List Char :=
  if n = 0 then ['0']
  else ((digitsLE (n + 1) n).map fun d => Char.ofNat (48 + d)).reverse

/-- The no-break space used by ICU as the pt-PT group separator. -/
def nbsp : Char := '\xa0'

/-- Insert a group separator after every third character, processing the
little-endian (reversed) digit list. -/
def group3Aux : ℕ → List Char → List Char
  | _, [] => []
  | 0, c :: rest => nbsp :: c :: group3Aux 2 rest
  | k + 1, c :: rest => c :: group3Aux k rest

/-- Group a big-endian digit list in threes.  CLDR gives pt a minimum
grouping of two digits, so a four-digit integer part stays ungrouped. -/
def groupDigits (ds : List Char) : List Char :=
  if ds.length ≤ 4 then ds else (group3Aux 3 ds.reverse).reverse

/-- `formatCurrency` from `formatters.ts`: model of
`Intl.NumberFormat("pt-PT", style currency EUR, 0 fraction digits)` applied
to the amount — round to the nearest integer (half away from zero), group
the digits, append the no-break space and the euro sign. -/
def formatCurrency (a : ℚ) : String :=
  (if halfExpand a < 0 then "-" else "") ++
    String.mk (groupDigits (natDigits (halfExpand a).natAbs)) ++ "\xa0€"

/-- Render a (sign, mantissa, scale) decimal: digits of `m` with a decimal
point `scale` places from the right, zero-padded as needed. -/
def decimalRender (neg : Bool) (m : ℕ) (scale : ℕ) : String :=
  (if neg then "-" else "") ++
    (let padded := List.replicate (scale + 1 - (natDigits m).length) '0' ++ natDigits m
     String.mk (padded.take (padded.length - scale)) ++
       (if scale = 0 then "" else "." ++ String.mk (padded.drop (padded.length - scale))))

/-- Model of `Number.prototype.toFixed(dp)` on a rational amount. -/
def toFixed (dp : ℕ) (q : ℚ) : String :=
  decimalRender (decide (halfExpand (q * (10 : ℚ) ^ dp) < 0))
    (halfExpand (q * (10 : ℚ) ^ dp)).natAbs dp

/-- `formatPercentage` from `formatters.ts`: two decimal places and a percent
sign. -/
def formatPercentage (v : ℚ) : String :=
  toFixed 2 v ++ "%"

mutual
/-- JSON values as consumed by this client.  Numbers are decimals
`± mant / 10 ^ scale` (the payloads carry currency amounts and 0–4 condition
scores; exponent forms and IEEE-double artifacts are outside the model). -/
inductive Json where
  | null
  | bool (b : Bool)
  | num (neg : Bool) (mant : ℕ) (scale : ℕ)
  | str (s : String)
  | arr (elems : JsonElems)
  | obj (fields : JsonFields)
inductive JsonElems where
  | nil
  | cons (hd : Json) (tl : JsonElems)
inductive JsonFields where
  | nil
  | cons (key : String) (val : Json) (tl : JsonFields)
end

deriving instance DecidableEq for Json, JsonElems, JsonFields

/-- JSON string escaping as performed by `JSON.stringify` (quote, backslash
and the common control characters; `\uXXXX` escapes are outside the model). -/
def escapeChar (c : Char) : List Char :=
  if c = '"' then ['\\', '"']
  else if c = '\\' then ['\\', '\\']
  else if c = '\n' then ['\\', 'n']
  else if c = '\t' then ['\\', 't']
  else if c = '\r' then ['\\', 'r']
  else if c = '\x08' then ['\\', 'b']
  else if c = '\x0c' then ['\\', 'f']
  else [c]

/-- A JSON string literal: quotes around the escaped content. -/
def escapeString (s : String) : String :=
  String.mk ('"' :: (s.data.map escapeChar).flatten ++ ['"'])

mutual
/-- Model of `JSON.stringify` (no indentation argument): canonical compact
serialization with no whitespace. -/
def Json.stringify : Json → String
  | .null => "null"
  | .bool b => if b then "true" else "false"
  | .num neg m scale => decimalRender neg m scale
  | .str s => escapeString s
  | .arr xs => "[" ++ JsonElems.stringify xs ++ "]"
  | .obj kvs => "\x7b" ++ JsonFields.stringify kvs ++ "\x7d"
def JsonElems.stringify : JsonElems → String
  | .nil => ""
  | .cons x .nil => Json.stringify x
  | .cons x (.cons y t) => Json.stringify x ++ "," ++ JsonElems.stringify (.cons y t)
def JsonFields.stringify : JsonFields → String
  | .nil => ""
  | .cons k v .nil => escapeString k ++ ":" ++ Json.stringify v
  | .cons k v (.cons k2 v2 t) =>
    escapeString k ++ ":" ++ Json.stringify v ++ "," ++ JsonFields.stringify (.cons k2 v2 t)
end

/-- The whitespace `JSON.parse` skips between tokens. -/
def jsonWS (c : Char) : Bool :=
  c = ' ' || c = '\t' || c = '\n' || c = '\r'

/-- Skip inter-token whitespace. -/
def skipWS (l : List Char) : List Char :=
  l.dropWhile jsonWS

/-- Parse the body of a JSON string literal (after the opening quote),
returning the decoded content and the input after the closing quote. -/
def parseStringBody : ℕ → List Char → Option (List Char × List Char)
  | 0, _ => none
  | _ + 1, [] => none
  | f + 1, c :: rest =>
    if c = '"' then some ([], rest)
    else if c = '\\' then
      match rest with
      | [] => none
      | e :: rest2 =>
        let dec : Option Char :=
          if e = '"' then some '"'
          else if e = '\\' then some '\\'
          else if e = '/' then some '/'
          else if e = 'n' then some '\n'
          else if e = 't' then some '\t'
          else if e = 'r' then some '\r'
          else if e = 'b' then some '\x08'
          else if e = 'f' then some '\x0c'
          else none
        match dec with
        | some d => (parseStringBody f rest2).map fun p => (d :: p.1, p.2)
        | none => none
    else (parseStringBody f rest).map fun p => (c :: p.1, p.2)

/-- Greedily read decimal digits. -/
def parseDigits : List Char → List ℕ × List Char
  | [] => ([], [])
  | c :: rest =>
    if c.isDigit then
      let p := parseDigits rest
      ((c.toNat - 48) :: p.1, p.2)
    else ([], c :: rest)

/-- Recombine big-endian digits into a natural number. -/
def digitsToNat (ds : List ℕ) : ℕ :=
  ds.foldl (fun acc d => 10 * acc + d) 0

/-- Parse a JSON number: optional minus sign, integer digits, optional
fraction.  Exponent forms are outside the model. -/
def parseNumber (l : List Char) : Option (Json × List Char) :=
  let state := match l with
    | c :: r => if c = '-' then (true, r) else (false, l)
    | [] => (false, l)
  match parseDigits state.2 with
  | ([], _) => none
  | (d :: ds, r) =>
    match r with
    | '.' :: r2 =>
      match parseDigits r2 with
      | ([], _) => none
      | (e :: es, r3) =>
        some (.num state.1 (digitsToNat ((d :: ds) ++ e :: es)) (e :: es).length, r3)
    | _ => some (.num state.1 (digitsToNat (d :: ds)) 0, r)

mutual
/-- Recursive-descent model of `JSON.parse`, fuelled to keep the recursion
structural; the fuel chosen by `Json.parse` exceeds any possible recursion
depth for the given input. -/
def parseVal : ℕ → List Char → Option (Json × List Char)
  | 0, _ => none
  | f + 1, l =>
    match skipWS l with
    | [] => none
    | c :: rest =>
      if c = 'n' then
        match rest with
        | 'u' :: 'l' :: 'l' :: r => some (.null, r)
        | _ => none
      else if c = 't' then
        match rest with
        | 'r' :: 'u' :: 'e' :: r => some (.bool true, r)
        | _ => none
      else if c = 'f' then
        match rest with
        | 'a' :: 'l' :: 's' :: 'e' :: r => some (.bool false, r)
        | _ => none
      else if c = '"' then
        (parseStringBody f rest).map fun p => (.str (String.mk p.1), p.2)
      else if c = '[' then
        match skipWS rest with
        | ']' :: r => some (.arr .nil, r)
        | l2 => (parseElems f l2).map fun p => (.arr p.1, p.2)
      else if c = '\x7b' then
        match skipWS rest with
        | [] => none
        | d :: r =>
          if d = '\x7d' then some (.obj .nil, r)
          else (parseMembers f (d :: r)).map fun p => (.obj p.1, p.2)
      else if c = '-' || c.isDigit then parseNumber (c :: rest)
      else none
def parseElems : ℕ → List Char → Option (JsonElems × List Char)
  | 0, _ => none
  | f + 1, l =>
    match parseVal f l with
    | none => none
    | some (v, r) =>
      match skipWS r with
      | ',' :: r2 => (parseElems f r2).map fun p => (.cons v p.1, p.2)
      | ']' :: r2 => some (.cons v .nil, r2)
      | _ => none
def parseMembers : ℕ → List Char → Option (JsonFields × List Char)
  | 0, _ => none
  | f + 1, l =>
    match skipWS l with
    | '"' :: r =>
      match parseStringBody f r with
      | none => none
      | some (k, r2) =>
        match skipWS r2 with
        | ':' :: r3 =>
          match parseVal f r3 with
          | none => none
          | some (v, r4) =>
            match skipWS r4 with
            | [] => none
            | d :: r5 =>
              if d = ',' then (parseMembers f r5).map fun p => (.cons (String.mk k) v p.1, p.2)
              else if d = '\x7d' then some (.cons (String.mk k) v .nil, r5)
              else none
        | _ => none
    | _ => none
end

/-- Model of `JSON.parse`: parse one value, require only whitespace after it;
`none` where the built-in would throw. -/
def Json.parse (s : String) : Option Json :=
  match parseVal (2 * s.length + 4) s.data with
  | some (v, r) => if skipWS r = [] then some v else none
  | none => none

/-- `rent_estimate` of the `AnalysisData` payload (`page.tsx`). -/
structure RentEstimate where
  monthly_rent : Option ℚ
  total_monthly_rent : Option ℚ
  annual_rent : Option ℚ
  rental_strategy : Option String

/-- `property_info` of the `AnalysisData` payload. -/
structure PropertyInfo where
  location : Option String
  size_m2 : Option ℚ
  bedrooms : Option ℚ
  bathrooms : Option ℚ

/-- `investment` of the `AnalysisData` payload. -/
structure Investment where
  purchase_price : ℚ
  remodeling_costs : ℚ
  total_investment : ℚ

/-- A per-room `Division` record of the `rehab_costs` payload.  Condition
values can be JSON `null`, which the renderer skips. -/
structure Division where
  division_id : String
  room_type : String
  size_m2 : ℚ
  images : List String
  costs : List (String × ℚ)
  total_cost : ℚ
  detailed_notes : Option String
  conditions : Option (List (String × Option ℚ))

/-- `financial_metrics.metrics` of the `AnalysisData` payload. -/
structure FinMetrics where
  roi_percentage : ℚ
  net_yield : ℚ
  gross_yield : ℚ
  months_to_break_even : ℚ

/-- `financial_metrics.net_income` of the `AnalysisData` payload. -/
structure NetIncome where
  monthly_net_income : ℚ
  annual_net_income : ℚ

/-- `financial_metrics` of the `AnalysisData` payload. -/
structure FinancialMetrics where
  metrics : FinMetrics
  net_income : NetIncome
  total_annual_expenses : ℚ

/-- `rehab_costs` of the `AnalysisData` payload. -/
structure RehabCosts where
  property_total : ℚ
  summary : List (String × ℚ)
  divisions : List Division

/-- The `AnalysisData` payload shape of `page.tsx`: every top-level field is
optional. -/
structure AnalysisData where
  success : Option Bool
  listing_id : Option String
  property_info : Option PropertyInfo
  investment : Option Investment
  rehab_costs : Option RehabCosts
  rent_estimate : Option RentEstimate
  financial_metrics : Option FinancialMetrics

/-- Truthiness of an optional string, as used by `x && <render>` guards:
`undefined` and the empty string are falsy. -/
def truthyStr (o : Option String) : Option String :=
  match o with
  | some s => if s = "" then none else some s
  | none => none

/-- Truthiness of an optional number: `undefined` and `0` are falsy. -/
def truthyNum (o : Option ℚ) : Option ℚ :=
  match o with
  | some v => if v = 0 then none else some v
  | none => none

/-- JavaScript `a || b` on numbers: `0` is falsy. -/
def jsOrQ (a b : ℚ) : ℚ :=
  if a = 0 then b else a

/-- The monthly figure fed to `formatCurrency` by the rental-potential card
and the monthly-rent-estimate block:
`data.rent_estimate.monthly_rent || data.rent_estimate.total_monthly_rent || 0`. -/
def displayedMonthly (r : RentEstimate) : ℚ :=
  jsOrQ (r.monthly_rent.getD 0) (jsOrQ (r.total_monthly_rent.getD 0) 0)

/-- One rendered condition entry of a division. -/
structure ConditionView where
  label : String
  value_display : String
  color : String
  rating_label : String

/-- The rendered card of one division. -/
structure DivisionView where
  title : String
  size_m2 : ℚ
  total_cost_display : String
  conditions : List ConditionView
  cost_items : List (String × String)
  images : List String
  notes : Option String

/-- The rendered rental-potential card. -/
structure RentView where
  monthly_display : String
  rental_strategy : Option String
  annual_display : Option String

/-- The rendered yield-and-payback card. -/
structure MetricsView where
  gross_yield_display : String
  net_yield_display : String
  annual_net_income_display : String
  payback_display : String

/-- The rendered investment summary. -/
structure InvestmentView where
  purchase_price_display : String
  remodeling_costs_display : String
  total_investment_display : String

/-- The rendered property-info card. -/
structure PropertyInfoView where
  location : Option String
  size_m2 : Option ℚ
  bedrooms : Option ℚ
  listing_id : Option String

/-- The sections of a successfully rendered report; each is `none` (or empty)
exactly when the renderer omits it. -/
structure ReportSections where
  property_info : Option PropertyInfoView
  investment : Option InvestmentView
  rent : Option RentView
  financial_metrics : Option MetricsView
  divisions : List DivisionView
  summary : Option (List (String × String))

/-- What the report page shows once loading finished: either the failure
message alone, or the guarded sections. -/
inductive ReportView where
  | failure (msg : String)
  | success (sections : ReportSections)

/-- Render one division card (`page.tsx`): title from the formatted room
type, formatted total cost, the non-null condition entries, the cost
breakdown entries, the image list and the truthiness-guarded notes. -/
def renderDivision (d : Division) : DivisionView where
  title := formatRoomType d.room_type ++ " - " ++ d.division_id
  size_m2 := d.size_m2
  total_cost_display := formatCurrency d.total_cost
  conditions :=
    match d.conditions with
    | none => []
    | some cs =>
      cs.filterMap fun kv =>
        kv.2.map fun v =>
          { label := formatCategoryName kv.1
            value_display := toFixed 1 v
            color := getConditionColor (some v)
            rating_label := getConditionLabel (some v) }
  cost_items := d.costs.map fun kv => (formatCategoryName kv.1, formatCurrency kv.2)
  images := d.images
  notes := truthyStr d.detailed_notes

/-- The category-level cost-summary entries the renderer keeps:
`Object.entries(data.rehab_costs.summary).filter(([_, cost]) => cost > 0)`. -/
def summaryEntries (summary : List (String × ℚ)) : List (String × ℚ) :=
  summary.filter fun kv => 0 < kv.2

/-- Model of the `Report` component's render after its mount effect: if the
success flag is falsy or missing, only the failure message; otherwise the
independently guarded sections. -/
def renderReport (d : AnalysisData) : ReportView :=
  match d.success with
  | some true =>
    .success
      { property_info := d.property_info.map fun p =>
          { location := truthyStr p.location
            size_m2 := truthyNum p.size_m2
            bedrooms := truthyNum p.bedrooms
            listing_id := truthyStr d.listing_id }
        investment := d.investment.map fun inv =>
          { purchase_price_display := formatCurrency inv.purchase_price
            remodeling_costs_display := formatCurrency inv.remodeling_costs
            total_investment_display := formatCurrency inv.total_investment }
        rent := d.rent_estimate.map fun r =>
          { monthly_display := formatCurrency (displayedMonthly r)
            rental_strategy := truthyStr r.rental_strategy
            annual_display := (truthyNum r.annual_rent).map formatCurrency }
        financial_metrics := d.financial_metrics.map fun fm =>
          { gross_yield_display := toFixed 1 fm.metrics.gross_yield ++ "%"
            net_yield_display := toFixed 1 fm.metrics.net_yield ++ "%"
            annual_net_income_display := formatCurrency fm.net_income.annual_net_income
            payback_display := toFixed 1 (fm.metrics.months_to_break_even / 12) ++ " yrs" }
        divisions :=
          match d.rehab_costs with
          | some rc => if rc.divisions.length > 0 then rc.divisions.map renderDivision else []
          | none => []
        summary := d.rehab_costs.map fun rc =>
          (summaryEntries rc.summary).map fun kv =>
            (formatCategoryName kv.1, formatCurrency kv.2) }
  | _ => .failure "No analysis data available or analysis failed."

/-- The state the submission page owns: the bound input value, the loading
flag, the session storage and the current route. -/
structure PageState where
  link : String
  loading : Bool
  storage : List (String × String)
  route : String

/-- The outcome of the single `fetch` a submission issues. -/
inductive FetchOutcome where
  | success (body : String)
  | httpError (status : ℕ) (body : String)
  | netError (message : String)

/-- `sessionStorage.setItem`: overwrite the key. -/
def storageSet (st : List (String × String)) (k v : String) : List (String × String) :=
  (k, v) :: st.filter fun kv => kv.1 != k

/-- `sessionStorage.getItem`. -/
def storageGet (st : List (String × String)) (k : String) : Option String :=
  st.lookup k

/-- Model of `analyzeProperty` from `services/api.ts`: on a non-ok status it
throws `Failed to analyze property: <status> <body text>`; on an ok status it
returns the parsed JSON body (an unparsable body makes `res.json()` reject,
surfaced here as a generic message); a network failure rejects with the
transport's own message. -/
def analyzeProperty (outcome : FetchOutcome) : Except String Json :=
  match outcome with
  | .success body =>
    match Json.parse body with
    | some v => .ok v
    | none => .error "Unexpected token in JSON"
  | .httpError status body =>
    .error ("Failed to analyze property: " ++ toString status ++ " " ++ body)
  | .netError msg => .error msg

/-- The observable result of one submission: the final page state, the
outbound requests issued and the alerts shown. -/
structure SubmitTrace where
  state : PageState
  requests : List String
  alerts : List String

/-- Model of `Home.handleSubmit` (`page.tsx`): if the trimmed link is empty,
alert and return before any fetch or storage write; otherwise set the loading
flag, issue the request with the raw link, and either store the serialized
response and navigate to `/report` (loading never reset — the component is
discarded), or alert with the error message and reset loading, leaving input,
storage and route untouched. -/
def handleSubmit (s : PageState) (outcome : FetchOutcome) : SubmitTrace :=
  if jsTrimList s.link.data = [] then
    { state := s, requests := [], alerts := ["Please enter a property link"] }
  else
    match analyzeProperty outcome with
    | .ok v =>
      { state :=
          { s with
            loading := true
            storage := storageSet s.storage "analysisData" (Json.stringify v)
            route := "/report" }
        requests := [s.link]
        alerts := [] }
    | .error msg =>
      { state := { s with loading := false }
        requests := [s.link]
        alerts := ["Failed to analyze property: " ++ msg] }

/-- The report view's mount effect reads the well-known storage key:
`sessionStorage.getItem("analysisData")`. -/
def reportRead (st : List (String × String)) : Option String :=
  storageGet st "analysisData"

/-- A fully populated payload whose success flag is `false`, used to observe
that the failure guard ignores all other fields. -/
def sampleFailedData : AnalysisData where
  success := some false
  listing_id := some "91234567"
  property_info := some
    { location := some "Lisboa", size_m2 := some 80, bedrooms := some 2, bathrooms := some 1 }
  investment := some
    { purchase_price := 250000, remodeling_costs := 45000, total_investment := 295000 }
  rehab_costs := some
    { property_total := 45000
      summary := [("plumbing", 5000), ("flooring", 9000)]
      divisions :=
        [{ division_id := "div-1"
           room_type := "living_room"
           size_m2 := 20
           images := ["https://example.org/1.jpg"]
           costs := [("flooring", 3000)]
           total_cost := 3000
           detailed_notes := some "worn floor"
           conditions := some [("flooring_condition", some 2)] }] }
  rent_estimate := some
    { monthly_rent := some 1500
      total_monthly_rent := some 1700
      annual_rent := some 18000
      rental_strategy := some "entire_apartment"
    }
  financial_metrics := some
    { metrics :=
        { roi_percentage := 8, net_yield := 6, gross_yield := 7, months_to_break_even := 150 }
      net_income := { monthly_net_income := 1100, annual_net_income := 13200 }
      total_annual_expenses := 4800 }

/-- `Rat.floor` agrees with the floor of the `FloorRing` instance. -/
theorem ratFloor_eq_floor (q : ℚ) : Rat.floor q = ⌊q⌋ := by
  rw [Rat.floor_def', ← Rat.floor_def]

/-- Splitting never yields the empty list of segments. -/
theorem splitUnderscore_ne_nil (l : List Char) : splitUnderscore l ≠ [] := by
  cases l with
  | nil => simp [splitUnderscore]
  | cons c rest =>
    rw [splitUnderscore]
    split
    · exact List.cons_ne_nil _ _
    · split <;> exact List.cons_ne_nil _ _

/-- Joining commutes with pulling the first character out of the first
segment. -/
theorem joinSpace_cons_char (c : Char) (s : List Char) (rest : List (List Char)) :
    joinSpace ((c :: s) :: rest) = c :: joinSpace (s :: rest) := by
  cases rest <;> simp [joinSpace]

/-- The split / capitalize / join pipeline computes `titleWords`: underscores
become spaces, the first character of each word is upper-cased and every
other character is unchanged. -/
theorem splitJoin_eq_titleWords (l : List Char) :
    joinSpace ((splitUnderscore l).map capFirst) = titleWords true l ∧
    joinSpace (capFirstTail (splitUnderscore l)) = titleWords false l := by
  induction l with
  | nil => exact ⟨rfl, rfl⟩
  | cons c rest ih =>
    obtain ⟨seg, segs, hsplit⟩ := List.exists_cons_of_ne_nil (splitUnderscore_ne_nil rest)
    by_cases hc : c = '_'
    · subst hc
      have hs : splitUnderscore ('_' :: rest) = [] :: seg :: segs := by
        rw [splitUnderscore, if_pos rfl, hsplit]
      have key : joinSpace (([] : List Char) :: capFirst seg :: segs.map capFirst) =
          ' ' :: titleWords true rest := by
        rw [show joinSpace (([] : List Char) :: capFirst seg :: segs.map capFirst) =
            ' ' :: joinSpace (capFirst seg :: segs.map capFirst) from by simp [joinSpace]]
        rw [show capFirst seg :: segs.map capFirst = ((seg :: segs).map capFirst) from rfl,
          ← hsplit, ih.1]
      refine ⟨?_, ?_⟩
      · rw [hs]
        simpa [titleWords, capFirst] using key
      · rw [hs]
        simpa [titleWords, capFirstTail] using key
    · have hs : splitUnderscore (c :: rest) = (c :: seg) :: segs := by
        rw [splitUnderscore, if_neg hc, hsplit]
      have key : joinSpace (seg :: segs.map capFirst) = titleWords false rest := by
        have h2 := ih.2
        rw [hsplit] at h2
        simpa [capFirstTail] using h2
      refine ⟨?_, ?_⟩
      · rw [hs, List.map_cons,
          show capFirst (c :: seg) = c.toUpper :: seg from rfl, joinSpace_cons_char, key]
        simp [titleWords, hc]
      · rw [hs, show capFirstTail ((c :: seg) :: segs) = (c :: seg) :: segs.map capFirst from rfl,
          joinSpace_cons_char, key]
        simp [titleWords, hc]

/-- C6 (amended): formatRoomType and formatCategoryName split on underscores,
upper-case the FIRST letter of each token and leave the remaining characters
of the token unchanged (they are not lower-cased), rejoining with single
spaces; in particular formatRoomType("living_room") = "Living Room" and
formatCategoryName("flooring_condition") = "Flooring Condition". -/
theorem labelFormat_capitalizes_first_only (s : String) :
    formatRoomType s = String.mk (titleWords true s.data) ∧
    formatCategoryName s = String.mk (titleWords true s.data) ∧
    formatRoomType "living_room" = "Living Room" ∧
    formatCategoryName "flooring_condition" = "Flooring Condition" :=
  ⟨congrArg String.mk (splitJoin_eq_titleWords s.data).1,
   congrArg String.mk (splitJoin_eq_titleWords s.data).1,
   by decide, by decide⟩

/-- C6 counterexample: on "a_BC" the code produces "A BC", not the
per-word title case "A Bc" the claim predicts — the characters after the
first one are not lower-cased. -/
theorem labelFormat_not_lowercasing : formatRoomType "a_BC" = "A BC" ∧
    formatRoomType "a_BC" ≠ "A Bc" := by
  constructor <;> decide

/-- C9: formatRoomType and formatCategoryName are extensionally equal — the
two source functions have identical bodies. -/
theorem formatRoomType_eq_formatCategoryName :
    ∀ s : String, formatRoomType s = formatCategoryName s :=
  fun _ => rfl

/-- C3: getConditionLabel yields "Excellent" when v ≥ 3.5, "Good" when
2.5 ≤ v < 3.5, "Fair" when 1.5 ≤ v < 2.5, "Poor" otherwise (v nonzero), and
"N/A" when the value is absent or zero; the boundary values 3.5, 2.5, 1.5, 0
and `none` map to "Excellent", "Good", "Fair", "N/A" and "N/A". -/
theorem getConditionLabel_thresholds (v : ℚ) :
    ((7/2 ≤ v → getConditionLabel (some v) = "Excellent") ∧
     (5/2 ≤ v → v < 7/2 → getConditionLabel (some v) = "Good") ∧
     (3/2 ≤ v → v < 5/2 → getConditionLabel (some v) = "Fair") ∧
     (v ≠ 0 → v < 3/2 → getConditionLabel (some v) = "Poor")) ∧
    getConditionLabel (some 0) = "N/A" ∧
    getConditionLabel none = "N/A" ∧
    getConditionLabel (some (7/2)) = "Excellent" ∧
    getConditionLabel (some (5/2)) = "Good" ∧
    getConditionLabel (some (3/2)) = "Fair" := by
  refine ⟨⟨?_, ?_, ?_, ?_⟩, ?_, ?_, ?_, ?_, ?_⟩
  · intro h
    rw [getConditionLabel, if_neg (by intro h0; rw [h0] at h; norm_num at h), if_pos h]
  · intro h hlt
    rw [getConditionLabel, if_neg (by intro h0; rw [h0] at h; norm_num at h),
      if_neg (not_le.mpr hlt), if_pos h]
  · intro h hlt
    rw [getConditionLabel, if_neg (by intro h0; rw [h0] at h; norm_num at h),
      if_neg (not_le.mpr (by linarith)), if_neg (not_le.mpr hlt), if_pos h]
  · intro h0 hlt
    rw [getConditionLabel, if_neg h0, if_neg (not_le.mpr (by linarith)),
      if_neg (not_le.mpr (by linarith)), if_neg (not_le.mpr hlt)]
  · rw [getConditionLabel, if_pos rfl]
  · rfl
  · rw [getConditionLabel, if_neg (by norm_num), if_pos le_rfl]
  · rw [getConditionLabel, if_neg (by norm_num), if_neg (by norm_num), if_pos le_rfl]
  · rw [getConditionLabel, if_neg (by norm_num), if_neg (by norm_num), if_neg (by norm_num),
      if_pos le_rfl]

/-- Witness for C3: the threshold theorem applied at the concrete rating 4
evaluates to "Excellent". -/
theorem getConditionLabel_thresholds_witness : getConditionLabel (some 4) = "Excellent" :=
  ((getConditionLabel_thresholds 4).1.1 (by norm_num))

/-- Every entry `digitsLE` produces is a decimal digit value. -/
theorem digitsLE_lt_ten (f : ℕ) : ∀ n d, d ∈ digitsLE f n → d < 10 := by
  induction f with
  | zero => intro n d hd; simp [digitsLE] at hd
  | succ f ih =>
    intro n d hd
    rw [digitsLE] at hd
    split at hd
    · simp at hd
    · rcases List.mem_cons.mp hd with h | h
      · exact h ▸ Nat.mod_lt n (by norm_num)
      · exact ih _ _ h

/-- Every character `natDigits` produces is a digit character. -/
theorem natDigits_isDigit (n : ℕ) : ∀ c ∈ natDigits n, c.isDigit = true := by
  intro c hc
  rw [natDigits] at hc
  split at hc
  · simp at hc
    exact hc ▸ (by decide)
  · rw [List.mem_reverse, List.mem_map] at hc
    obtain ⟨d, hd, rfl⟩ := hc
    have : d < 10 := digitsLE_lt_ten _ _ _ hd
    interval_cases d <;> decide

/-- Filtering the group separators back out of a grouped little-endian digit
list recovers the digits. -/
theorem group3Aux_filter (l : List Char) (h : ∀ c ∈ l, c.isDigit = true) :
    ∀ k, (group3Aux k l).filter Char.isDigit = l := by
  induction l with
  | nil => intro k; simp [group3Aux]
  | cons c rest ih =>
    intro k
    have hc : c.isDigit = true := h c (by simp)
    have hr : ∀ x ∈ rest, x.isDigit = true := fun x hx => h x (by simp [hx])
    match k with
    | 0 =>
      rw [group3Aux]
      rw [List.filter_cons_of_neg (by decide), List.filter_cons_of_pos hc, ih hr 2]
    | Nat.succ k =>
      rw [group3Aux, List.filter_cons_of_pos hc, ih hr k]

/-- Filtering the separators out of the grouped digit string recovers the
digit list. -/
theorem groupDigits_filter (ds : List Char) (h : ∀ c ∈ ds, c.isDigit = true) :
    (groupDigits ds).filter Char.isDigit = ds := by
  rw [groupDigits]
  split
  · exact List.filter_eq_self.mpr h
  · rw [List.filter_reverse, group3Aux_filter ds.reverse (fun c hc => h c (List.mem_reverse.mp hc)),
      List.reverse_reverse]

/-- Characters of a grouped list are digits of the original list or the
group separator. -/
theorem mem_group3Aux (c : Char) : ∀ (k : ℕ) (l : List Char), c ∈ group3Aux k l → c ∈ l ∨ c = nbsp := by
  intro k l
  induction l generalizing k with
  | nil => intro h; simp [group3Aux] at h
  | cons a rest ih =>
    intro h
    match k with
    | 0 =>
      rw [group3Aux] at h
      rcases List.mem_cons.mp h with h | h
      · exact Or.inr h
      · rcases List.mem_cons.mp h with h | h
        · exact Or.inl (h ▸ by simp)
        · rcases ih 2 h with h | h
          · exact Or.inl (by simp [h])
          · exact Or.inr h
    | Nat.succ k =>
      rw [group3Aux] at h
      rcases List.mem_cons.mp h with h | h
      · exact Or.inl (h ▸ by simp)
      · rcases ih k h with h | h
        · exact Or.inl (by simp [h])
        · exact Or.inr h

/-- The comma (the pt-PT decimal separator) never occurs in a grouped digit
string. -/
theorem comma_not_mem_groupDigits (ds : List Char) (h : ∀ c ∈ ds, c.isDigit = true) :
    ',' ∉ groupDigits ds := by
  intro hc
  rw [groupDigits] at hc
  split at hc
  · exact absurd (h _ hc) (by decide)
  · rw [List.mem_reverse] at hc
    rcases mem_group3Aux ',' 3 ds.reverse hc with h1 | h1
    · exact absurd (h _ (List.mem_reverse.mp h1)) (by decide)
    · exact absurd h1 (by decide)

/-- The nearest-integer property of half-away-from-zero rounding, nonnegative
case. -/
theorem halfExpand_abs_le_of_nonneg (q : ℚ) (h : 0 ≤ q) :
    |((halfExpand q : ℚ)) - q| ≤ 1/2 := by
  rw [halfExpand, if_pos h, ratFloor_eq_floor]
  have h1 : ((⌊q + 1/2⌋ : ℤ) : ℚ) ≤ q + 1/2 := Int.floor_le _
  have h2 : q + 1/2 < ⌊q + 1/2⌋ + 1 := Int.lt_floor_add_one _
  rw [abs_le]
  constructor <;> linarith

/-- The rounded value is within one half of the amount: `halfExpand` rounds
to a nearest integer. -/
theorem halfExpand_abs_le (q : ℚ) : |((halfExpand q : ℚ)) - q| ≤ 1/2 := by
  by_cases h : 0 ≤ q
  · exact halfExpand_abs_le_of_nonneg q h
  · have h' : 0 ≤ -q := by linarith
    have hb := halfExpand_abs_le_of_nonneg (-q) h'
    rw [halfExpand, if_pos h'] at hb
    rw [halfExpand, if_neg h,
      show (((-(Rat.floor (-q + 1/2)) : ℤ)) : ℚ) - q =
        -(((Rat.floor (-q + 1/2) : ℤ) : ℚ) - -q) by push_cast; ring, abs_neg]
    exact hb

/-- The rounded integer displayed for 1234.6 is 1235. -/
theorem halfExpand_example : halfExpand (6173/5) = 1235 := by
  have : ⌊(6173/5 + 1/2 : ℚ)⌋ = 1235 := by
    rw [Int.floor_eq_iff]
    norm_num
  rw [halfExpand, if_pos (by norm_num), ratFloor_eq_floor, this]

/-- C7: formatCurrency produces a zero-decimal EUR string — its digit
characters are exactly the decimal digits of the half-away-from-zero rounding
of the amount (a nearest integer: the rounded value is within 1/2 of the
amount), it contains no decimal separator, and on 1234.6 it renders the
pt-PT equivalent of €1,235 ("1235 €" with a no-break space and trailing euro
sign, ungrouped because pt-PT groups only five-digit integer parts). -/
theorem formatCurrency_rounds_to_nearest_eur (a : ℚ) :
    (formatCurrency a).data.filter Char.isDigit = natDigits (halfExpand a).natAbs ∧
    ',' ∉ (formatCurrency a).data ∧
    |((halfExpand a : ℚ)) - a| ≤ 1/2 ∧
    formatCurrency (6173/5) = "1235\xa0€" := by
  have hdata : (formatCurrency a).data =
      (if halfExpand a < 0 then "-" else "").data ++
        groupDigits (natDigits (halfExpand a).natAbs) ++ ['\xa0', '€'] := by
    rw [formatCurrency, String.data_append, String.data_append]
  refine ⟨?_, ?_, halfExpand_abs_le a, ?_⟩
  · rw [hdata, List.filter_append, List.filter_append,
      groupDigits_filter _ (natDigits_isDigit _)]
    have hsign : (if halfExpand a < 0 then "-" else "").data.filter Char.isDigit = [] := by
      split <;> decide
    rw [hsign]
    simp
  · rw [hdata]
    intro hc
    rcases List.mem_append.mp hc with hc | hc
    · rcases List.mem_append.mp hc with hc | hc
      · revert hc
        split <;> decide
      · exact comma_not_mem_groupDigits _ (natDigits_isDigit _) hc
    · exact absurd hc (by decide)
  · rw [formatCurrency, halfExpand_example]
    decide

/-- Trimming a string made only of whitespace leaves nothing. -/
theorem jsTrimList_eq_nil_of_ws (l : List Char) (h : ∀ c ∈ l, jsWhitespace c = true) :
    jsTrimList l = [] := by
  rw [jsTrimList, List.dropWhile_eq_nil_iff.mpr h]
  simp

/-- C4: submitting an empty or whitespace-only link issues no outbound call
and changes nothing — the handler alerts and returns before any fetch or
session-storage write, so the final state equals the initial one and the
request list is empty. -/
theorem handleSubmit_blank_noop (s : PageState) (o : FetchOutcome)
    (h : ∀ c ∈ s.link.data, jsWhitespace c = true) :
    handleSubmit s o =
      { state := s, requests := [], alerts := ["Please enter a property link"] } := by
  rw [handleSubmit, if_pos (jsTrimList_eq_nil_of_ws s.link.data h)]

/-- Witness for C4: a whitespace-only link (" \t ") with a pending network
failure produces no request, no storage change and only the warning. -/
theorem handleSubmit_blank_noop_witness :
    handleSubmit { link := " \t ", loading := false, storage := [], route := "/" }
        (.netError "boom") =
      { state := { link := " \t ", loading := false, storage := [], route := "/" }
        requests := []
        alerts := ["Please enter a property link"] } :=
  handleSubmit_blank_noop _ _ (by decide)

/-- C5: on a transport failure (non-success HTTP status, or a network
error), the handler alerts with a message embedding the status and the
response body text (for the HTTP case) or the transport's message (for the
network case), resets the loading flag to false, and leaves the link text,
the stored snapshot and the route unchanged. -/
theorem handleSubmit_transport_failure (s : PageState) (status : ℕ) (body errMsg : String)
    (h : jsTrimList s.link.data ≠ []) :
    (handleSubmit s (.httpError status body)).state.link = s.link ∧
    (handleSubmit s (.httpError status body)).state.loading = false ∧
    (handleSubmit s (.httpError status body)).state.storage = s.storage ∧
    (handleSubmit s (.httpError status body)).state.route = s.route ∧
    (handleSubmit s (.httpError status body)).alerts =
      ["Failed to analyze property: Failed to analyze property: " ++
        toString status ++ " " ++ body] ∧
    (handleSubmit s (.netError errMsg)).state.link = s.link ∧
    (handleSubmit s (.netError errMsg)).state.loading = false ∧
    (handleSubmit s (.netError errMsg)).state.storage = s.storage ∧
    (handleSubmit s (.netError errMsg)).state.route = s.route ∧
    (handleSubmit s (.netError errMsg)).alerts =
      ["Failed to analyze property: " ++ errMsg] := by
  rw [handleSubmit, if_neg h, handleSubmit, if_neg h]
  exact ⟨rfl, rfl, rfl, rfl, rfl, rfl, rfl, rfl, rfl, rfl⟩

/-- Witness for C5: an HTTP 500 with body "oops" on a nonempty link leaves
link, storage and route unchanged, resets loading, and alerts with the
status and body embedded. -/
theorem handleSubmit_transport_failure_witness :
    (handleSubmit { link := "https://x", loading := false, storage := [("k", "v")], route := "/" }
        (.httpError 500 "oops")).state.storage = [("k", "v")] ∧
    (handleSubmit { link := "https://x", loading := false, storage := [("k", "v")], route := "/" }
        (.httpError 500 "oops")).alerts =
      ["Failed to analyze property: Failed to analyze property: 500 oops"] :=
  ⟨(handleSubmit_transport_failure
      { link := "https://x", loading := false, storage := [("k", "v")], route := "/" }
      500 "oops" "" (by decide)).2.2.1,
   (handleSubmit_transport_failure
      { link := "https://x", loading := false, storage := [("k", "v")], route := "/" }
      500 "oops" "" (by decide)).2.2.2.2.1⟩

/-- C1: whenever the stored snapshot's success flag is absent or false, the
report render is only the failure message — no property-info, investment,
rent, financial-metrics or division section exists in the output, whatever
other fields the payload carries. -/
theorem reportView_failure_on_unsuccessful (d : AnalysisData)
    (h : d.success = none ∨ d.success = some false) :
    renderReport d = .failure "No analysis data available or analysis failed." := by
  rcases h with h | h <;> rw [renderReport, h]

/-- Witness for C1: a payload with every section populated but success set
to false renders as the bare failure message. -/
theorem reportView_failure_on_unsuccessful_witness :
    renderReport sampleFailedData = .failure "No analysis data available or analysis failed." :=
  reportView_failure_on_unsuccessful sampleFailedData (Or.inr rfl)

/-- JavaScript `a || b` on numbers is zero exactly when both operands are
zero. -/
theorem jsOrQ_eq_zero (a b : ℚ) : jsOrQ a b = 0 ↔ a = 0 ∧ b = 0 := by
  rw [jsOrQ]
  split_ifs with h <;> simp [h]

/-- An optional number defaults to zero exactly when it is absent or zero. -/
theorem getD_zero_iff (o : Option ℚ) : o.getD 0 = 0 ↔ (o = none ∨ o = some 0) := by
  cases o <;> simp

/-- C10: the rental display's fallback chain treats a zero monthly_rent like
an absent one — when monthly_rent is absent or 0 and total_monthly_rent is
present and nonzero the displayed figure is total_monthly_rent, and the
display is 0 exactly when both fields are absent or zero. -/
theorem displayedMonthly_fallback (r : RentEstimate) :
    ((r.monthly_rent = none ∨ r.monthly_rent = some 0) →
      ∀ t, r.total_monthly_rent = some t → t ≠ 0 → displayedMonthly r = t) ∧
    (displayedMonthly r = 0 ↔
      ((r.monthly_rent = none ∨ r.monthly_rent = some 0) ∧
        (r.total_monthly_rent = none ∨ r.total_monthly_rent = some 0))) := by
  constructor
  · intro hm t ht htne
    have hA : r.monthly_rent.getD 0 = 0 := by rcases hm with h | h <;> simp [h]
    rw [displayedMonthly, hA, ht]
    simp [jsOrQ, htne]
  · rw [displayedMonthly, jsOrQ_eq_zero, jsOrQ_eq_zero]
    simp [getD_zero_iff]

/-- Witness for C10: monthly_rent 0 with total_monthly_rent 1700 displays
1700. -/
theorem displayedMonthly_fallback_witness :
    displayedMonthly
      { monthly_rent := some 0, total_monthly_rent := some 1700
        annual_rent := none, rental_strategy := none } = 1700 :=
  (displayedMonthly_fallback _).1 (Or.inr rfl) 1700 rfl (by norm_num)

/-- C8: the rendered category-level cost summary keeps exactly the entries
with strictly positive cost — an entry is kept iff it occurs in the summary
with a positive value; concretely, values 1 are kept while 0 and -5 are
dropped. -/
theorem summary_keeps_exactly_positive (s : List (String × ℚ)) (k : String) (c : ℚ) :
    ((k, c) ∈ summaryEntries s ↔ (k, c) ∈ s ∧ 0 < c) ∧
    summaryEntries [("paint", 1), ("tiles", 0), ("roof", -5)] = [("paint", 1)] := by
  constructor
  · simp [summaryEntries, List.mem_filter]
  · rw [summaryEntries, List.filter_cons_of_pos (by norm_num),
      List.filter_cons_of_neg (by norm_num), List.filter_cons_of_neg (by norm_num)]
    rfl

/-- Witness for C8: the membership characterization applied at a concrete
positive entry. -/
theorem summary_keeps_exactly_positive_witness :
    ("paint", (1 : ℚ)) ∈ summaryEntries [("paint", (1 : ℚ))] :=
  (summary_keeps_exactly_positive [("paint", (1 : ℚ))] "paint" 1).1.mpr
    ⟨by simp, by norm_num⟩

/-- Reading the well-known key right after writing it returns the written
string. -/
theorem storageGet_set (st : List (String × String)) (k v : String) :
    storageGet (storageSet st k v) k = some v := by
  simp [storageGet, storageSet]

/-- C2 (amended): a successful response body is stored as the JSON
serialization of its PARSED value — `JSON.stringify(await res.json())`,
identical to the response text only when that text is already in canonical
stringify form — and this stored string is exactly what the report view's
mount read returns. -/
theorem submit_stores_serialized_parse (s : PageState) (body : String) (v : Json)
    (hlink : jsTrimList s.link.data ≠ [])
    (hparse : Json.parse body = some v) :
    storageGet (handleSubmit s (.success body)).state.storage "analysisData" =
      some (Json.stringify v) ∧
    reportRead (handleSubmit s (.success body)).state.storage =
      some (Json.stringify v) := by
  rw [handleSubmit, if_neg hlink]
  simp only [analyzeProperty, hparse]
  exact ⟨storageGet_set .., storageGet_set ..⟩

/-- Witness for C2: submitting a link with the successful body "true"
stores and re-reads the serialization "true". -/
theorem submit_stores_serialized_parse_witness :
    storageGet
        (handleSubmit { link := "https://x", loading := false, storage := [], route := "/" }
          (.success "true")).state.storage "analysisData" =
      some (Json.stringify (Json.bool true)) ∧
    reportRead
        (handleSubmit { link := "https://x", loading := false, storage := [], route := "/" }
          (.success "true")).state.storage =
      some (Json.stringify (Json.bool true)) :=
  submit_stores_serialized_parse
    { link := "https://x", loading := false, storage := [], route := "/" }
    "true" (Json.bool true) (by decide) (by decide)

/-- C2 counterexample: the stored value is NOT the byte-for-byte response
text, and stringify-after-parse is not the identity on it — submitting the
successful body "\x7b \"a\": 1 \x7d" (an object with inter-token whitespace)
stores the canonical serialization "\x7b\"a\":1\x7d" instead. -/
theorem submit_not_byte_identical :
    Json.parse "\x7b \"a\": 1 \x7d" =
      some (Json.obj (.cons "a" (Json.num false 1 0) .nil)) ∧
    Json.stringify (Json.obj (.cons "a" (Json.num false 1 0) .nil)) ≠
      "\x7b \"a\": 1 \x7d" ∧
    storageGet
        (handleSubmit { link := "u", loading := false, storage := [], route := "/" }
          (.success "\x7b \"a\": 1 \x7d")).state.storage "analysisData" ≠
      some "\x7b \"a\": 1 \x7d" ∧
    storageGet
        (handleSubmit { link := "u", loading := false, storage := [], route := "/" }
          (.success "\x7b \"a\": 1 \x7d")).state.storage "analysisData" =
      some "\x7b\"a\":1\x7d" := by
  refine ⟨by decide, by decide, by decide, by decide⟩
